import Mathlib

/-!
Verification of the DNS zone resolution logic of `pkg/asset/manifests/dns.go`
(the `Generate` method of the `DNS` asset).  The Go code is shallowly
embedded: the per-platform switch becomes a Lean function from an install
configuration, an infra ID and an environment of external lookup
capabilities to either an error or a resolved DNS config together with the
list of zone-lookup calls that were issued.  External collaborators (cloud
SDK sessions, Azure DNS config helpers, IBM clients) are inputs of the
environment; serialization is out of scope, so the generated file carries
the structured record.
-/

/-- `types.PublishingStrategy`: External or Internal publishing. -/
inductive PublishingStrategy
  | External
  | Internal
deriving DecidableEq, Repr

/-- `configv1.DNSZone`: a zone reference with an optional provider handle
and an optional tag mapping (Go zero values: empty string, nil map).
Tags are kept in the insertion order of the Go code. -/
structure DNSZone where
  id : String := ""
  tags : List (String × String) := []
deriving DecidableEq, Repr

/-- `azuretypes.CloudEnvironment` values (`CloudName`); only the Stack
cloud is distinguished by the DNS logic. -/
inductive AzureCloudName
  | publicCloud
  | usGovCloud
  | chinaCloud
  | germanCloud
  | stackCloud
deriving DecidableEq, Repr

/-- The AWS platform fields used by `Generate`: `AWS.HostedZone`
(empty string when the operator supplied no private hosted zone). -/
structure AWSPlatform where
  hostedZone : String := ""
deriving DecidableEq, Repr

/-- The Azure platform fields used by `Generate`. -/
structure AzurePlatform where
  cloudName : AzureCloudName
  baseDomainResourceGroupName : String := ""
deriving DecidableEq, Repr

/-- `gcptypes.DNSZone`: an operator-supplied zone override `{ID, ProjectID}`. -/
structure GCPDNSZone where
  id : String := ""
  projectID : String := ""
deriving DecidableEq, Repr

/-- The GCP platform fields used by `Generate`. -/
structure GCPPlatform where
  projectID : String := ""
  publicDNSZone : Option GCPDNSZone := none
  privateDNSZone : Option GCPDNSZone := none
deriving DecidableEq, Repr

/-- The platform of the install configuration, as dispatched on by the
switch in `Generate`.  `invalid` stands for any unrecognized platform
name (the `default` case of the switch). -/
inductive Platform
  | alibabacloud
  | aws (cfg : AWSPlatform)
  | azure (cfg : AzurePlatform)
  | gcp (cfg : GCPPlatform)
  | ibmcloud
  | powervs
  | libvirt
  | openstack
  | baremetal
  | none
  | vsphere
  | ovirt
  | nutanix
  | invalid (name : String)
deriving DecidableEq, Repr

/-- The slice of `InstallConfig` that `Generate` reads:
platform, base domain, cluster domain (`ClusterDomain()`), publish strategy. -/
structure InstallConfig where
  platform : Platform
  baseDomain : String
  clusterDomain : String
  publish : PublishingStrategy
deriving DecidableEq, Repr

/-- The resolved `configv1.DNSSpec`: the cluster base domain plus the two
optional zone references. -/
structure DNSConfigSpec where
  baseDomain : String
  publicZone : Option DNSZone := none
  privateZone : Option DNSZone := none
deriving DecidableEq, Repr

/-- A zone-lookup call issued against a cloud provider. -/
inductive LookupCall
  | awsPublicZone (domain : String)
  | gcpPublicZone (project domain : String)
  | ibmZoneByName (domain : String) (publish : PublishingStrategy)
  | powervsZoneByName (domain : String)
deriving DecidableEq, Repr

/-- Errors returned by `Generate`, distinguishing how they were built:
`goNew` for `errors.New`, `goWrap` for `errors.Wrap`/`Wrapf` of an
external error, `external` for an external error returned unmodified. -/
inductive GenError
  | goNew (msg : String)
  | goWrap (msg : String) (cause : String)
  | external (err : String)
deriving DecidableEq, Repr

/-- The rendered message of an error, following `pkg/errors` formatting
(`wrap` prints as `msg: cause`). -/
def GenError.message : GenError → String
  | .goNew m => m
  | .goWrap m cause => m ++ ": " ++ cause
  | .external e => e

/-- The Azure DNS config collaborator (`installConfig.Azure.DNSConfig()`):
two ID-composition functions, treated as opaque. -/
structure AzureDNSConfig where
  getDNSZoneID : String → String → String
  getPrivateDNSZoneID : String → String → String

/-- The environment of external capabilities consumed by `Generate`.
Client/session construction and lookups can fail; errors are opaque
strings.  `azureClusterResourceGroupName` stands for the
`Azure.ClusterResourceGroupName(infraID)` helper, which is external to
the excerpt. -/
structure Lookups where
  awsSession : Except String Unit
  awsGetPublicZone : String → Except String String
  azureDNSConfig : Except String AzureDNSConfig
  azureClusterResourceGroupName : String → String
  gcpGetPublicZone : String → String → Except String String
  ibmNewClient : Except String Unit
  ibmGetDNSZoneIDByName : String → PublishingStrategy → Except String String
  powervsNewClient : Except String Unit
  powervsGetDNSZoneIDByName : String → Except String String

/-- `combineGCPZoneInfo` from dns.go:
`fmt.Sprintf("project/%s/managedZones/%s", project, zoneName)`. -/
def combineGCPZoneInfo (project zoneName : String) : String :=
  "project/" ++ project ++ "/managedZones/" ++ zoneName

/-- `strings.TrimPrefix`: drop `pre` from the front of `s` when it starts
with `pre`, otherwise return `s` unchanged. -/
def trimLead (pre s : String) : String :=
  if pre.data.isPrefixOf s.data then String.mk (s.data.drop pre.length) else s

/-- Go `%q` rendering of a string, modelled as plain double quoting. -/
def quoteStr (s : String) : String :=
  "\"" ++ s ++ "\""

/-- The alibabacloud case of the switch: no lookup calls; the public zone
(base domain, tagged public) only when publishing externally; the private
zone is always the cluster domain, tagged private. -/
def resolveAlibabaCloud (ic : InstallConfig) : DNSConfigSpec × List LookupCall :=
  let config : DNSConfigSpec := { baseDomain := ic.clusterDomain }
  let config :=
    if ic.publish = PublishingStrategy.External then
      { config with publicZone := some { id := ic.baseDomain, tags := [("type", "public")] } }
    else config
  ({ config with privateZone := some { id := ic.clusterDomain, tags := [("type", "private")] } }, [])

/-- The public-zone block of the aws case: when publishing externally,
initialize a session and look up the public zone, stripping the
`/hostedzone/` handle; otherwise no zone and no call. -/
def awsPublicStep (ic : InstallConfig) (env : Lookups) :
    Except GenError (Option DNSZone × List LookupCall) :=
  if ic.publish = PublishingStrategy.External then
    match env.awsSession with
    | Except.error e => Except.error (GenError.goWrap "failed to initialize session" e)
    | Except.ok _ =>
        match env.awsGetPublicZone ic.baseDomain with
        | Except.error e =>
            Except.error
              (GenError.goWrap ("getting public zone for " ++ quoteStr ic.baseDomain) e)
        | Except.ok zoneId =>
            Except.ok (some { id := trimLead "/hostedzone/" zoneId },
              [LookupCall.awsPublicZone ic.baseDomain])
  else Except.ok (none, [])

/-- The private-zone block of the aws case: the operator hosted zone by
ID when given, otherwise the synthesized ownership tags (no lookup). -/
def awsPrivateZone (cfg : AWSPlatform) (infraID : String) : DNSZone :=
  if cfg.hostedZone = "" then
    { tags := [("kubernetes.io/cluster/" ++ infraID, "owned"), ("Name", infraID ++ "-int")] }
  else { id := cfg.hostedZone }

/-- The aws case of the switch: the public-zone block (whose error aborts
the case), then the private-zone block. -/
def resolveAWS (cfg : AWSPlatform) (ic : InstallConfig) (infraID : String)
    (env : Lookups) : Except GenError (DNSConfigSpec × List LookupCall) :=
  match awsPublicStep ic env with
  | Except.error e => Except.error e
  | Except.ok (pz, calls) =>
      Except.ok
        ({ baseDomain := ic.clusterDomain
           publicZone := pz
           privateZone := some (awsPrivateZone cfg infraID) }, calls)

/-- The azure case of the switch: obtain the DNS config collaborator (its
error is returned unmodified); the public zone ID is computed from the
base-domain resource group when publishing externally; the private zone
is computed from the cluster resource group and the cluster domain,
skipped on the Stack cloud. -/
def resolveAzure (cfg : AzurePlatform) (ic : InstallConfig) (infraID : String)
    (env : Lookups) : Except GenError (DNSConfigSpec × List LookupCall) :=
  let config : DNSConfigSpec := { baseDomain := ic.clusterDomain }
  match env.azureDNSConfig with
  | Except.error e => Except.error (GenError.external e)
  | Except.ok dnsConfig =>
      let pubID :=
        dnsConfig.getDNSZoneID cfg.baseDomainResourceGroupName ic.baseDomain
      let privID :=
        dnsConfig.getPrivateDNSZoneID (env.azureClusterResourceGroupName infraID)
          ic.clusterDomain
      let config :=
        if ic.publish = PublishingStrategy.External then
          { config with publicZone := some { id := pubID } }
        else config
      let config :=
        if cfg.cloudName ≠ AzureCloudName.stackCloud then
          { config with privateZone := some { id := privID } }
        else config
      Except.ok (config, [])

/-- The zone ID used for a GCP zone override: composed with
`combineGCPZoneInfo` exactly when the override has a non-empty project
different from the install's own project. -/
def gcpZoneID (ownProject : String) (oz : GCPDNSZone) : String :=
  if oz.projectID ≠ "" ∧ ownProject ≠ oz.projectID then
    combineGCPZoneInfo oz.projectID oz.id
  else oz.id

/-- The search fallback of the gcp public-zone block: the project is
searched for a zone with the base domain. -/
def gcpSearchPublic (cfg : GCPPlatform) (ic : InstallConfig) (env : Lookups) :
    Except GenError (Option DNSZone × List LookupCall) :=
  match env.gcpGetPublicZone cfg.projectID ic.baseDomain with
  | Except.error e =>
      Except.error
        (GenError.goWrap ("failed to get public zone for " ++ quoteStr ic.baseDomain) e)
  | Except.ok name =>
      Except.ok (some { id := name }, [LookupCall.gcpPublicZone cfg.projectID ic.baseDomain])

/-- The public-zone block of the gcp case: skipped unless publishing
externally; an override with non-empty ID is used (cross-project
composed) with no lookup; otherwise the search fallback runs. -/
def gcpPublicStep (cfg : GCPPlatform) (ic : InstallConfig) (env : Lookups) :
    Except GenError (Option DNSZone × List LookupCall) :=
  if ic.publish ≠ PublishingStrategy.External then Except.ok (none, [])
  else
    match cfg.publicDNSZone with
    | some oz =>
        if oz.id ≠ "" then
          Except.ok (some { id := gcpZoneID cfg.projectID oz }, [])
        else gcpSearchPublic cfg ic env
    | Option.none => gcpSearchPublic cfg ic env

/-- The gcp case of the switch: the public-zone block, then the
private-zone block.  In the private block an override with non-empty ID
is — as in the source (dns.go line 170) — assigned to `publicZone`;
otherwise the installer-created `<infraID>-private-zone` ID is used with
no lookup. -/
def resolveGCP (cfg : GCPPlatform) (ic : InstallConfig) (infraID : String)
    (env : Lookups) : Except GenError (DNSConfigSpec × List LookupCall) :=
  match gcpPublicStep cfg ic env with
  | Except.error e => Except.error e
  | Except.ok (pz, calls) =>
      let config : DNSConfigSpec := { baseDomain := ic.clusterDomain, publicZone := pz }
      match cfg.privateDNSZone with
      | some oz =>
          if oz.id ≠ "" then
            -- Faithful to the source: this branch assigns the PUBLIC zone.
            Except.ok ({ config with publicZone := some { id := gcpZoneID cfg.projectID oz } },
              calls)
          else
            Except.ok ({ config with privateZone := some { id := infraID ++ "-private-zone" } },
              calls)
      | Option.none =>
          Except.ok ({ config with privateZone := some { id := infraID ++ "-private-zone" } },
            calls)

/-- The ibmcloud case of the switch: build the client, look the zone up
by base domain and publish strategy, use it for the public zone only
when publishing externally and for the private zone unconditionally. -/
def resolveIBMCloud (ic : InstallConfig) (env : Lookups) :
    Except GenError (DNSConfigSpec × List LookupCall) :=
  let config : DNSConfigSpec := { baseDomain := ic.clusterDomain }
  match env.ibmNewClient with
  | Except.error e => Except.error (GenError.goWrap "failed to get IBM Cloud client" e)
  | Except.ok _ =>
      match env.ibmGetDNSZoneIDByName ic.baseDomain ic.publish with
      | Except.error e => Except.error (GenError.goWrap "failed to get DNS zone ID" e)
      | Except.ok zoneID =>
          let config :=
            if ic.publish = PublishingStrategy.External then
              { config with publicZone := some { id := zoneID } }
            else config
          Except.ok ({ config with privateZone := some { id := zoneID } },
            [LookupCall.ibmZoneByName ic.baseDomain ic.publish])

/-- The powervs case of the switch, analogous to ibmcloud but the lookup
takes only the base domain. -/
def resolvePowerVS (ic : InstallConfig) (env : Lookups) :
    Except GenError (DNSConfigSpec × List LookupCall) :=
  let config : DNSConfigSpec := { baseDomain := ic.clusterDomain }
  match env.powervsNewClient with
  | Except.error e => Except.error (GenError.goWrap "failed to get IBM PowerVS client" e)
  | Except.ok _ =>
      match env.powervsGetDNSZoneIDByName ic.baseDomain with
      | Except.error e => Except.error (GenError.goWrap "failed to get DNS zone ID" e)
      | Except.ok zoneID =>
          let config :=
            if ic.publish = PublishingStrategy.External then
              { config with publicZone := some { id := zoneID } }
            else config
          Except.ok ({ config with privateZone := some { id := zoneID } },
            [LookupCall.powervsZoneByName ic.baseDomain])

/-- The platform switch of `Generate`: the resolved DNS spec and the
lookup calls issued, or the first error. -/
def generateDNSConfig (ic : InstallConfig) (infraID : String) (env : Lookups) :
    Except GenError (DNSConfigSpec × List LookupCall) :=
  match ic.platform with
  | Platform.alibabacloud => Except.ok (resolveAlibabaCloud ic)
  | Platform.aws cfg => resolveAWS cfg ic infraID env
  | Platform.azure cfg => resolveAzure cfg ic infraID env
  | Platform.gcp cfg => resolveGCP cfg ic infraID env
  | Platform.ibmcloud => resolveIBMCloud ic env
  | Platform.powervs => resolvePowerVS ic env
  | Platform.libvirt | Platform.openstack | Platform.baremetal | Platform.none
  | Platform.vsphere | Platform.ovirt | Platform.nutanix =>
      Except.ok ({ baseDomain := ic.clusterDomain }, [])
  | Platform.invalid _ => Except.error (GenError.goNew "invalid Platform")

/-- A generated asset file; serialization is out of scope so the data is
kept structured. -/
structure AssetFile where
  filename : String
  data : DNSConfigSpec
deriving DecidableEq, Repr

/-- The `DNS` asset: its generated file list. -/
structure DNS where
  fileList : List AssetFile
deriving DecidableEq, Repr

/-- `dnsCfgFilename` from dns.go (`manifestDir` is `"manifests"`). -/
def dnsCfgFilename : String := "manifests/cluster-dns-02-config.yml"

/-- The `Generate` method on the asset: on success the file list is
replaced with the single rendered config; on any early-returned error the
receiver is left untouched. -/
def DNS.generate (d : DNS) (ic : InstallConfig) (infraID : String) (env : Lookups) :
    DNS × Option GenError :=
  match generateDNSConfig ic infraID env with
  | Except.error e => (d, some e)
  | Except.ok (config, _) =>
      ({ fileList := [{ filename := dnsCfgFilename, data := config }] }, none)

/-- Whether an optional GCP zone override is present with a non-empty ID
(the guard of the override cases of the two GCP switches). -/
def hasZoneOverride : Option GCPDNSZone → Bool
  | some oz => oz.id != ""
  | Option.none => false

/-- A zone reference populates exactly one of the two forms: a by-ID
string, or a by-tags mapping. -/
def DNSZone.exactlyOneForm (z : DNSZone) : Prop :=
  (z.id ≠ "" ∧ z.tags = []) ∨ (z.id = "" ∧ z.tags ≠ [])

/-- Whether the character list `sub` occurs contiguously inside `s`. -/
def listHasSub (sub : List Char) : List Char → Bool
  | [] => sub.isEmpty
  | c :: rest => sub.isPrefixOf (c :: rest) || listHasSub sub rest

/-- Whether the string `sub` occurs as a substring of `s`. -/
def strHasSub (sub s : String) : Bool := listHasSub sub.data s.data

/-- An optional zone reference populates at most one of the two forms:
when present, its ID is empty or its tag mapping is empty. -/
def zoneFormAtMostOne : Option DNSZone → Prop
  | some z => z.id = "" ∨ z.tags = []
  | Option.none => True

/-- A concrete Azure DNS config collaborator used to instantiate
theorems on concrete inputs. -/
def azureDNSConfigTest : AzureDNSConfig where
  getDNSZoneID := fun rg d => rg ++ "/" ++ d
  getPrivateDNSZoneID := fun rg d => rg ++ "/" ++ d

/-- A fixed benign environment used to instantiate theorems on concrete
inputs. -/
def envTest : Lookups where
  awsSession := Except.ok ()
  awsGetPublicZone := fun _ => Except.ok "/hostedzone/ABC123"
  azureDNSConfig := Except.ok azureDNSConfigTest
  azureClusterResourceGroupName := fun i => i ++ "-rg"
  gcpGetPublicZone := fun _ _ => Except.ok "gzone"
  ibmNewClient := Except.ok ()
  ibmGetDNSZoneIDByName := fun _ _ => Except.ok "ibmzone"
  powervsNewClient := Except.ok ()
  powervsGetDNSZoneIDByName := fun _ => Except.ok "pvszone"

/-- A lookup environment whose IBM Cloud zone lookup fails. -/
def envIbmFail : Lookups :=
  { envTest with ibmGetDNSZoneIDByName := fun _ _ => Except.error "boom" }

/-- A lookup environment whose AWS public-zone lookup fails. -/
def envAwsFail : Lookups :=
  { envTest with awsGetPublicZone := fun _ => Except.error "nope" }

/-- Any public zone produced by the aws public-zone block is a by-ID
reference: its tag mapping is empty. -/
lemma awsPublicStep_tags (ic : InstallConfig) (env : Lookups) (pz : Option DNSZone)
    (calls : List LookupCall) (h : awsPublicStep ic env = Except.ok (pz, calls)) :
    ∀ z, pz = some z → z.tags = [] := by
  intro z hz
  unfold awsPublicStep at h
  repeat' split at h
  all_goals first
    | exact Except.noConfusion h
    | (injection h with h
       injection h with h1 h2
       subst h1
       first
       | exact Option.noConfusion hz
       | (injection hz with hz; subst hz; rfl))

/-- Any public zone produced by the gcp public-zone block is a by-ID
reference: its tag mapping is empty. -/
lemma gcpPublicStep_tags (cfg : GCPPlatform) (ic : InstallConfig) (env : Lookups)
    (pz : Option DNSZone) (calls : List LookupCall)
    (h : gcpPublicStep cfg ic env = Except.ok (pz, calls)) :
    ∀ z, pz = some z → z.tags = [] := by
  intro z hz
  unfold gcpPublicStep gcpSearchPublic at h
  repeat' split at h
  all_goals first
    | exact Except.noConfusion h
    | (injection h with h
       injection h with h1 h2
       subst h1
       first
       | exact Option.noConfusion hz
       | (injection hz with hz; subst hz; rfl))

/-- An optional zone all of whose inhabitants have an empty tag mapping
populates at most one form. -/
lemma zoneFormAtMostOne_of_tags (oz : Option DNSZone)
    (h : ∀ z, oz = some z → z.tags = []) : zoneFormAtMostOne oz := by
  cases oz
  · trivial
  · exact Or.inr (h _ rfl)

/-- The aws public-zone block never produces the invalid-platform error. -/
lemma awsPublicStep_not_goNew (ic : InstallConfig) (env : Lookups) (m : String) :
    awsPublicStep ic env ≠ Except.error (GenError.goNew m) := by
  intro h
  unfold awsPublicStep at h
  repeat' split at h
  all_goals first
    | exact Except.noConfusion h
    | (injection h with h; exact GenError.noConfusion h)

/-- The aws case never produces the invalid-platform error. -/
lemma resolveAWS_not_goNew (cfg : AWSPlatform) (ic : InstallConfig) (infraID : String)
    (env : Lookups) (m : String) :
    resolveAWS cfg ic infraID env ≠ Except.error (GenError.goNew m) := by
  intro h
  unfold resolveAWS at h
  split at h
  next e heq =>
    injection h with h
    subst h
    exact awsPublicStep_not_goNew ic env m heq
  next pz calls heq => exact Except.noConfusion h

/-- The azure case never produces the invalid-platform error. -/
lemma resolveAzure_not_goNew (cfg : AzurePlatform) (ic : InstallConfig) (infraID : String)
    (env : Lookups) (m : String) :
    resolveAzure cfg ic infraID env ≠ Except.error (GenError.goNew m) := by
  intro h
  unfold resolveAzure at h
  repeat' split at h
  all_goals first
    | exact Except.noConfusion h
    | (injection h with h; exact GenError.noConfusion h)

/-- The gcp public-zone block never produces the invalid-platform error. -/
lemma gcpPublicStep_not_goNew (cfg : GCPPlatform) (ic : InstallConfig) (env : Lookups)
    (m : String) :
    gcpPublicStep cfg ic env ≠ Except.error (GenError.goNew m) := by
  intro h
  unfold gcpPublicStep gcpSearchPublic at h
  repeat' split at h
  all_goals first
    | exact Except.noConfusion h
    | (injection h with h; exact GenError.noConfusion h)

/-- The gcp case never produces the invalid-platform error. -/
lemma resolveGCP_not_goNew (cfg : GCPPlatform) (ic : InstallConfig) (infraID : String)
    (env : Lookups) (m : String) :
    resolveGCP cfg ic infraID env ≠ Except.error (GenError.goNew m) := by
  intro h
  unfold resolveGCP at h
  split at h
  next e heq =>
    injection h with h
    subst h
    exact gcpPublicStep_not_goNew cfg ic env m heq
  next pz calls heq =>
    repeat' split at h
    all_goals exact Except.noConfusion h

/-- The ibmcloud case never produces the invalid-platform error. -/
lemma resolveIBMCloud_not_goNew (ic : InstallConfig) (env : Lookups) (m : String) :
    resolveIBMCloud ic env ≠ Except.error (GenError.goNew m) := by
  intro h
  unfold resolveIBMCloud at h
  repeat' split at h
  all_goals first
    | exact Except.noConfusion h
    | (injection h with h; exact GenError.noConfusion h)

/-- The powervs case never produces the invalid-platform error. -/
lemma resolvePowerVS_not_goNew (ic : InstallConfig) (env : Lookups) (m : String) :
    resolvePowerVS ic env ≠ Except.error (GenError.goNew m) := by
  intro h
  unfold resolvePowerVS at h
  repeat' split at h
  all_goals first
    | exact Except.noConfusion h
    | (injection h with h; exact GenError.noConfusion h)

/-- C1: the claim says a GCP private-zone override with a non-empty ID
makes the private zone a by-ID reference holding the override ID.  The
code instead assigns the override ID to the PUBLIC zone (dns.go line
170) and leaves the private zone unset: here, with publish Internal and
override `{id := "pz"}`, the resolved config has `publicZone = byID "pz"`
and no private zone. -/
theorem gcp_private_override_sets_public_zone :
    generateDNSConfig ⟨Platform.gcp { projectID := "p1", privateDNSZone := some { id := "pz" } }, "b.io", "c.b.io", PublishingStrategy.Internal⟩ "xyz" envTest
      = Except.ok
        ({ baseDomain := "c.b.io"
           publicZone := some { id := "pz" }
           privateZone := none }, []) := rfl

/-- C2: the claim says a public zone is present only when publish is
External.  Because the GCP private-override branch assigns the public
zone (dns.go line 170), an Internal-publish install with private
override `{id := "zq", projectID := "p9"}` and own project `"p1"` yields
`publicZone = byID "project/p9/managedZones/zq"` — a public zone under
Internal publishing. -/
theorem gcp_internal_publish_public_zone :
    generateDNSConfig ⟨Platform.gcp { projectID := "p1", privateDNSZone := some { id := "zq", projectID := "p9" } }, "b.io", "c.b.io", PublishingStrategy.Internal⟩ "inf" envTest
      = Except.ok
        ({ baseDomain := "c.b.io"
           publicZone := some { id := "project/p9/managedZones/zq" }
           privateZone := none }, []) := rfl

/-- C3 counterexample: on Alibaba Cloud both zone references carry both a
non-empty ID and a non-empty tag mapping, so the private zone of this
resolved config does not populate exactly one of the two forms. -/
theorem alibaba_zone_both_forms :
    generateDNSConfig ⟨Platform.alibabacloud, "b.io", "c.b.io", PublishingStrategy.External⟩ "i1" envTest
      = Except.ok
        ({ baseDomain := "c.b.io"
           publicZone := some { id := "b.io", tags := [("type", "public")] }
           privateZone := some { id := "c.b.io", tags := [("type", "private")] } }, [])
  ∧ ¬ DNSZone.exactlyOneForm { id := "c.b.io", tags := [("type", "private")] } :=
  ⟨rfl, by unfold DNSZone.exactlyOneForm; decide⟩

/-- C3 (amended): for every platform other than Alibaba Cloud, each zone
reference of a successfully resolved config populates at most one of the
two forms: whenever tags are set the ID is empty, and whenever an ID is
set the tag mapping is empty. -/
theorem zone_forms_at_most_one (ic : InstallConfig) (infraID : String)
    (env : Lookups) (spec : DNSConfigSpec) (calls : List LookupCall)
    (hok : generateDNSConfig ic infraID env = Except.ok (spec, calls))
    (hplat : ic.platform ≠ Platform.alibabacloud) :
    zoneFormAtMostOne spec.publicZone ∧ zoneFormAtMostOne spec.privateZone := by
  obtain ⟨plat, bd, cd, pub⟩ := ic
  cases plat
  case alibabacloud => exact absurd rfl hplat
  case aws cfg =>
    simp only [generateDNSConfig] at hok
    unfold resolveAWS at hok
    split at hok
    · exact Except.noConfusion hok
    · next pz calls' heq =>
        injection hok with h
        injection h with h1 h2
        subst h1
        refine ⟨zoneFormAtMostOne_of_tags _ (awsPublicStep_tags _ _ _ _ heq), ?_⟩
        by_cases hz : cfg.hostedZone = "" <;>
          simp [zoneFormAtMostOne, awsPrivateZone, hz]
  case gcp cfg =>
    simp only [generateDNSConfig] at hok
    unfold resolveGCP at hok
    split at hok
    · exact Except.noConfusion hok
    · next pz calls' heq =>
        repeat' split at hok
        all_goals
          (injection hok with h
           injection h with h1 h2
           subst h1
           refine ⟨?_, ?_⟩ <;>
             first
             | trivial
             | exact Or.inr rfl
             | exact zoneFormAtMostOne_of_tags _ (gcpPublicStep_tags _ _ _ _ _ heq))
  case azure cfg =>
    simp only [generateDNSConfig] at hok
    unfold resolveAzure at hok
    repeat' split at hok
    all_goals first
      | exact Except.noConfusion hok
      | (injection hok with h
         injection h with h1 h2
         subst h1
         refine ⟨?_, ?_⟩ <;>
           first
           | trivial
           | exact Or.inr rfl)
  case ibmcloud =>
    simp only [generateDNSConfig] at hok
    unfold resolveIBMCloud at hok
    repeat' split at hok
    all_goals first
      | exact Except.noConfusion hok
      | (injection hok with h
         injection h with h1 h2
         subst h1
         refine ⟨?_, ?_⟩ <;>
           first
           | trivial
           | exact Or.inr rfl)
  case powervs =>
    simp only [generateDNSConfig] at hok
    unfold resolvePowerVS at hok
    repeat' split at hok
    all_goals first
      | exact Except.noConfusion hok
      | (injection hok with h
         injection h with h1 h2
         subst h1
         refine ⟨?_, ?_⟩ <;>
           first
           | trivial
           | exact Or.inr rfl)
  case invalid name => exact Except.noConfusion hok
  all_goals
    (injection hok with h
     injection h with h1 h2
     subst h1
     exact ⟨trivial, trivial⟩)

/-- Witness for C3 (amended): at a concrete AWS install the resolved
public zone is by ID and the resolved private zone is by tags, each
populating at most one form. -/
theorem zone_forms_at_most_one_witness :
    zoneFormAtMostOne (some { id := "ABC123", tags := [] })
  ∧ zoneFormAtMostOne (some { id := "", tags := [("kubernetes.io/cluster/abc123", "owned"), ("Name", "abc123-int")] }) :=
  zone_forms_at_most_one ⟨Platform.aws { hostedZone := "" }, "example.com", "c.example.com", PublishingStrategy.External⟩ "abc123" envTest
    { baseDomain := "c.example.com"
      publicZone := some { id := "ABC123" }
      privateZone := some { tags := [("kubernetes.io/cluster/abc123", "owned"), ("Name", "abc123-int")] } }
    [LookupCall.awsPublicZone "example.com"] rfl (by decide)

/-- C4: every no-DNS platform (libvirt, openstack, baremetal, none,
vsphere, ovirt, nutanix) resolves successfully, for both publishing
strategies, to a config with neither a public nor a private zone, and no
lookup call is issued. -/
theorem no_dns_platforms_empty (bd cd : String) (pub : PublishingStrategy)
    (infraID : String) (env : Lookups) :
    generateDNSConfig ⟨Platform.libvirt, bd, cd, pub⟩ infraID env
        = Except.ok ({ baseDomain := cd }, [])
  ∧ generateDNSConfig ⟨Platform.openstack, bd, cd, pub⟩ infraID env
        = Except.ok ({ baseDomain := cd }, [])
  ∧ generateDNSConfig ⟨Platform.baremetal, bd, cd, pub⟩ infraID env
        = Except.ok ({ baseDomain := cd }, [])
  ∧ generateDNSConfig ⟨Platform.none, bd, cd, pub⟩ infraID env
        = Except.ok ({ baseDomain := cd }, [])
  ∧ generateDNSConfig ⟨Platform.vsphere, bd, cd, pub⟩ infraID env
        = Except.ok ({ baseDomain := cd }, [])
  ∧ generateDNSConfig ⟨Platform.ovirt, bd, cd, pub⟩ infraID env
        = Except.ok ({ baseDomain := cd }, [])
  ∧ generateDNSConfig ⟨Platform.nutanix, bd, cd, pub⟩ infraID env
        = Except.ok ({ baseDomain := cd }, []) :=
  ⟨rfl, rfl, rfl, rfl, rfl, rfl, rfl⟩

/-- C5: on AWS, Internal publishing issues no public-zone lookup and
yields no public zone; External publishing with a successful session and
lookup yields the looked-up handle with any `/hostedzone/` lead stripped;
in both cases the private zone is the operator hosted zone verbatim by ID
when given, and otherwise the synthesized ownership tags
`kubernetes.io/cluster/<infraID> = owned` and `Name = <infraID>-int`,
with no private-zone lookup. -/
theorem aws_resolution (cfg : AWSPlatform) (bd cd infraID : String) (env : Lookups) :
    (generateDNSConfig ⟨Platform.aws cfg, bd, cd, PublishingStrategy.Internal⟩ infraID env
      = Except.ok
        ({ baseDomain := cd
           privateZone := if cfg.hostedZone = "" then some { tags := [("kubernetes.io/cluster/" ++ infraID, "owned"), ("Name", infraID ++ "-int")] } else some { id := cfg.hostedZone } }, []))
  ∧ (∀ h, env.awsSession = Except.ok () → env.awsGetPublicZone bd = Except.ok h →
      generateDNSConfig ⟨Platform.aws cfg, bd, cd, PublishingStrategy.External⟩ infraID env
        = Except.ok
          ({ baseDomain := cd
             publicZone := some { id := trimLead "/hostedzone/" h }
             privateZone := if cfg.hostedZone = "" then some { tags := [("kubernetes.io/cluster/" ++ infraID, "owned"), ("Name", infraID ++ "-int")] } else some { id := cfg.hostedZone } },
           [LookupCall.awsPublicZone bd])) := by
  constructor
  · by_cases hz : cfg.hostedZone = "" <;>
      simp [generateDNSConfig, resolveAWS, awsPublicStep, awsPrivateZone, hz]
  · intro h hs hl
    by_cases hz : cfg.hostedZone = "" <;>
      simp [generateDNSConfig, resolveAWS, awsPublicStep, awsPrivateZone, hs, hl, hz]

/-- Witness for C5: with the lookup returning `/hostedzone/ABC123` the
public zone is `byID "ABC123"` and the private zone carries the
synthesized ownership tags for infra ID `abc123`. -/
theorem aws_resolution_witness :
    generateDNSConfig ⟨Platform.aws { hostedZone := "" }, "example.com", "c.example.com", PublishingStrategy.External⟩ "abc123" envTest
      = Except.ok
        ({ baseDomain := "c.example.com"
           publicZone := some { id := "ABC123" }
           privateZone := some { tags := [("kubernetes.io/cluster/abc123", "owned"), ("Name", "abc123-int")] } },
         [LookupCall.awsPublicZone "example.com"]) :=
  (aws_resolution { hostedZone := "" } "example.com" "c.example.com" "abc123" envTest).2
    "/hostedzone/ABC123" rfl rfl

/-- C6: on GCP with External publishing and a public-zone override with
non-empty ID (and no private override), the public zone is the override
composed as `project/<projectID>/managedZones/<zoneID>` exactly when the
override project is non-empty and differs from the own project, and the
bare override ID otherwise; no lookup call is issued either way. -/
theorem gcp_public_override_resolution (own oid opid bd cd infraID : String)
    (env : Lookups) (hid : oid ≠ "") :
    (opid ≠ "" → own ≠ opid →
      generateDNSConfig ⟨Platform.gcp { projectID := own, publicDNSZone := some { id := oid, projectID := opid } }, bd, cd, PublishingStrategy.External⟩ infraID env
        = Except.ok
          ({ baseDomain := cd
             publicZone := some { id := combineGCPZoneInfo opid oid }
             privateZone := some { id := infraID ++ "-private-zone" } }, []))
  ∧ (opid = "" ∨ opid = own →
      generateDNSConfig ⟨Platform.gcp { projectID := own, publicDNSZone := some { id := oid, projectID := opid } }, bd, cd, PublishingStrategy.External⟩ infraID env
        = Except.ok
          ({ baseDomain := cd
             publicZone := some { id := oid }
             privateZone := some { id := infraID ++ "-private-zone" } }, [])) := by
  constructor
  · intro h1 h2
    simp [generateDNSConfig, resolveGCP, gcpPublicStep, gcpZoneID, hid, h1, h2]
  · rintro (h1 | h1) <;>
      simp [generateDNSConfig, resolveGCP, gcpPublicStep, gcpZoneID, hid, h1]

/-- Witness for C6: override `{id := "z1", projectID := "p2"}` with own
project `"p1"` resolves to `byID "project/p2/managedZones/z1"` with no
lookup call. -/
theorem gcp_public_override_resolution_witness :
    generateDNSConfig ⟨Platform.gcp { projectID := "p1", publicDNSZone := some { id := "z1", projectID := "p2" } }, "b.io", "c.b.io", PublishingStrategy.External⟩ "xyz" envTest
      = Except.ok
        ({ baseDomain := "c.b.io"
           publicZone := some { id := "project/p2/managedZones/z1" }
           privateZone := some { id := "xyz-private-zone" } }, []) :=
  (gcp_public_override_resolution "p1" "z1" "p2" "b.io" "c.b.io" "xyz" envTest
    (by decide)).1 (by decide) (by decide)

/-- C7: an unrecognized platform makes `Generate` fail with the
`invalid Platform` error and leave the asset untouched (no file is
emitted), and that error arises only for unrecognized platforms. -/
theorem invalid_platform_only (ic : InstallConfig) (infraID : String)
    (env : Lookups) (d : DNS) :
    (∀ name, ic.platform = Platform.invalid name →
        DNS.generate d ic infraID env = (d, some (GenError.goNew "invalid Platform")))
  ∧ (generateDNSConfig ic infraID env = Except.error (GenError.goNew "invalid Platform") →
      ∃ name, ic.platform = Platform.invalid name) := by
  constructor
  · intro name h
    simp [DNS.generate, generateDNSConfig, h]
  · intro he
    obtain ⟨plat, bd, cd, pub⟩ := ic
    cases plat
    case invalid name => exact ⟨name, rfl⟩
    case alibabacloud => exact Except.noConfusion he
    case aws cfg => exact absurd he (resolveAWS_not_goNew cfg _ infraID env _)
    case azure cfg => exact absurd he (resolveAzure_not_goNew cfg _ infraID env _)
    case gcp cfg => exact absurd he (resolveGCP_not_goNew cfg _ infraID env _)
    case ibmcloud => exact absurd he (resolveIBMCloud_not_goNew _ env _)
    case powervs => exact absurd he (resolvePowerVS_not_goNew _ env _)
    all_goals exact Except.noConfusion he

/-- Witness for C7: an install with the unrecognized platform `"foo"`
fails with the invalid-platform error and the asset keeps its empty file
list. -/
theorem invalid_platform_only_witness :
    DNS.generate { fileList := [] } ⟨Platform.invalid "foo", "b.io", "c.b.io", PublishingStrategy.External⟩ "i1" envTest
      = ({ fileList := [] }, some (GenError.goNew "invalid Platform")) :=
  (invalid_platform_only ⟨Platform.invalid "foo", "b.io", "c.b.io", PublishingStrategy.External⟩ "i1" envTest { fileList := [] }).1 "foo" rfl

/-- C8 counterexample: on IBM Cloud a failed zone lookup is wrapped as
`failed to get DNS zone ID`, whose rendered message does not contain the
base domain `example.com` — the wrap context does not include the base
domain on every platform. -/
theorem ibm_lookup_error_lacks_domain :
    generateDNSConfig ⟨Platform.ibmcloud, "example.com", "c.example.com", PublishingStrategy.External⟩ "abc" envIbmFail
      = Except.error (GenError.goWrap "failed to get DNS zone ID" "boom")
  ∧ strHasSub "example.com" ((GenError.goWrap "failed to get DNS zone ID" "boom").message) = false :=
  ⟨rfl, by decide⟩

/-- C8 (amended): any error of the resolution leaves the asset untouched
(no config record at all), and a failed zone lookup propagates as a
wrapped error — with the base domain in the context on AWS and GCP, and
with the fixed message `failed to get DNS zone ID` on IBM Cloud and
Power VS. -/
theorem lookup_failure_propagation (ic : InstallConfig) (infraID : String)
    (env : Lookups) (d : DNS) (e : String) :
    (∀ err, generateDNSConfig ic infraID env = Except.error err →
        DNS.generate d ic infraID env = (d, some err))
  ∧ (∀ cfg, ic.platform = Platform.aws cfg → ic.publish = PublishingStrategy.External →
      env.awsSession = Except.ok () → env.awsGetPublicZone ic.baseDomain = Except.error e →
      generateDNSConfig ic infraID env
        = Except.error (GenError.goWrap ("getting public zone for " ++ quoteStr ic.baseDomain) e))
  ∧ (∀ cfg, ic.platform = Platform.gcp cfg → ic.publish = PublishingStrategy.External →
      hasZoneOverride cfg.publicDNSZone = false →
      env.gcpGetPublicZone cfg.projectID ic.baseDomain = Except.error e →
      generateDNSConfig ic infraID env
        = Except.error (GenError.goWrap ("failed to get public zone for " ++ quoteStr ic.baseDomain) e))
  ∧ (ic.platform = Platform.ibmcloud → env.ibmNewClient = Except.ok () →
      env.ibmGetDNSZoneIDByName ic.baseDomain ic.publish = Except.error e →
      generateDNSConfig ic infraID env
        = Except.error (GenError.goWrap "failed to get DNS zone ID" e))
  ∧ (ic.platform = Platform.powervs → env.powervsNewClient = Except.ok () →
      env.powervsGetDNSZoneIDByName ic.baseDomain = Except.error e →
      generateDNSConfig ic infraID env
        = Except.error (GenError.goWrap "failed to get DNS zone ID" e)) := by
  refine ⟨?_, ?_, ?_, ?_, ?_⟩
  · intro err h
    simp [DNS.generate, h]
  · intro cfg hp hpub hs hl
    simp [generateDNSConfig, resolveAWS, awsPublicStep, hp, hpub, hs, hl]
  · intro cfg hp hpub hov hl
    rcases hoz : cfg.publicDNSZone with _ | oz
    · simp [generateDNSConfig, resolveGCP, gcpPublicStep, gcpSearchPublic, hp, hpub, hoz, hl]
    · rw [hoz] at hov
      simp only [hasZoneOverride, bne_iff_ne, ne_eq] at hov
      simp at hov
      simp [generateDNSConfig, resolveGCP, gcpPublicStep, gcpSearchPublic, hp, hpub, hoz, hov, hl]
  · intro hp hc hl
    simp [generateDNSConfig, resolveIBMCloud, hp, hc, hl]
  · intro hp hc hl
    simp [generateDNSConfig, resolvePowerVS, hp, hc, hl]

/-- Witness for C8 (amended): a failed AWS public-zone lookup propagates
wrapped with the base domain. -/
theorem lookup_failure_propagation_witness :
    generateDNSConfig ⟨Platform.aws { hostedZone := "" }, "example.com", "c.example.com", PublishingStrategy.External⟩ "i1" envAwsFail
      = Except.error (GenError.goWrap "getting public zone for \"example.com\"" "nope") :=
  (lookup_failure_propagation ⟨Platform.aws { hostedZone := "" }, "example.com", "c.example.com", PublishingStrategy.External⟩ "i1" envAwsFail { fileList := [] } "nope").2.1
    { hostedZone := "" } rfl rfl rfl rfl

/-- C9: on Azure the private zone (built from the cluster resource group
and the cluster domain) is omitted exactly when the cloud variant is the
Stack cloud, for both publishing strategies; the publishing strategy only
gates the public zone. -/
theorem azure_private_zone_stack_gate (cfg : AzurePlatform) (bd cd : String)
    (pub : PublishingStrategy) (infraID : String) (env : Lookups)
    (dnsCfg : AzureDNSConfig) (h : env.azureDNSConfig = Except.ok dnsCfg) :
    generateDNSConfig ⟨Platform.azure cfg, bd, cd, pub⟩ infraID env
      = Except.ok
        ({ baseDomain := cd
           publicZone := if pub = PublishingStrategy.External then some { id := dnsCfg.getDNSZoneID cfg.baseDomainResourceGroupName bd } else none
           privateZone := if cfg.cloudName = AzureCloudName.stackCloud then none else some { id := dnsCfg.getPrivateDNSZoneID (env.azureClusterResourceGroupName infraID) cd } }, []) := by
  by_cases hst : cfg.cloudName = AzureCloudName.stackCloud <;>
    cases pub <;>
      simp [generateDNSConfig, resolveAzure, h, hst]

/-- Witness for C9: a non-Stack Azure install with Internal publishing
has a private zone and no public zone. -/
theorem azure_private_zone_stack_gate_witness :
    generateDNSConfig ⟨Platform.azure { cloudName := AzureCloudName.publicCloud, baseDomainResourceGroupName := "rg1" }, "b.io", "c.b.io", PublishingStrategy.Internal⟩ "xyz" envTest
      = Except.ok
        ({ baseDomain := "c.b.io"
           publicZone := none
           privateZone := some { id := "xyz-rg/c.b.io" } }, []) :=
  azure_private_zone_stack_gate { cloudName := AzureCloudName.publicCloud, baseDomainResourceGroupName := "rg1" }
    "b.io" "c.b.io" PublishingStrategy.Internal "xyz" envTest azureDNSConfigTest rfl

/-- C10: on Alibaba Cloud no lookup call is ever issued; the private zone
is always the cluster domain tagged `type = private`, and the public zone
is the base domain tagged `type = public` exactly when publishing
externally. -/
theorem alibaba_resolution (bd cd : String) (pub : PublishingStrategy)
    (infraID : String) (env : Lookups) :
    generateDNSConfig ⟨Platform.alibabacloud, bd, cd, pub⟩ infraID env
      = Except.ok
        ({ baseDomain := cd
           publicZone := if pub = PublishingStrategy.External then some { id := bd, tags := [("type", "public")] } else none
           privateZone := some { id := cd, tags := [("type", "private")] } }, []) := by
  cases pub <;> rfl
